import Mathlib

/-!
# RouletteWheel: the `MainScene` of `MainScene.cpp`

A shallow embedding of `src/RouletteWheel/MainScene.cpp`.

* Scalars (`float32`) are elements of an ordered field `α`; the theorems that speak about
  distances instantiate `α` with `ℝ`, the library functions with `Real.cos`, `Real.sin` and
  the constant `M_PI` with `Real.pi`.
* The rigid-body engine and the scene-graph engine are not part of the repository.  The few
  operations of them that `MainScene.cpp` calls are modelled below, each one marked as such.
* A pointer to a body is `Option Nat`: `none` is `NULL`, `some i` is the `i`-th body of
  the world.
* A function body that can stop at an `assert`, or call a member through a pointer that
  is `NULL`, returns an `Outcome` that keeps the state at the point where it stopped.
-/

namespace RouletteWheel

/-! ## Data model -/

/-- The engine's two-component vector (`b2Vec2`, used as `Vec2` in the scene). -/
structure Vec2 (α : Type) where
  x : α
  y : α

/-- The engine's body kinds. -/
inductive b2BodyType where
  | b2_staticBody
  | b2_kinematicBody
  | b2_dynamicBody
  deriving DecidableEq

/-- The shapes the scene builds: `b2CircleShape` (field `m_radius`) and `b2ChainShape`
(what `CreateChain(vertices, count)` received). -/
inductive b2Shape (α : Type) where
  | circle (m_radius : α)
  | chain (vertices : List (Vec2 α)) (count : Nat)

/-- The fields of `FixtureDef` that `CreateBody` assigns. -/
structure FixtureDef (α : Type) where
  shape : Option (b2Shape α)
  density : α
  friction : α
  restitution : α
  isSensor : Bool

/-- The fields of `b2BodyDef` that matter to the scene. -/
structure b2BodyDef (α : Type) where
  type : b2BodyType
  position : Vec2 α
  linearVelocity : Vec2 α
  angularVelocity : α

/-- A rigid body: "a physics-engine-managed object with position, velocity, and attached
collision shapes".  `fixtures` is in the order of attachment; a fixture keeps the
definition it was made from, with its own copy of the shape. -/
structure b2Body (α : Type) where
  type : b2BodyType
  position : Vec2 α
  linearVelocity : Vec2 α
  angularVelocity : α
  fixtures : List (FixtureDef α)

/-- One call into the rigid-body engine, as the engine receives it. -/
inductive Call (α : Type) where
  | CreateBody (bd : b2BodyDef α) (result : Option Nat)
  | CreateFixture (body : Nat) (fd : FixtureDef α)
  | SetAngularVelocity (body : Nat) (omega : α)
  | SetLinearVelocity (body : Nat) (v : Vec2 α)
  | Step (dt : α) (velocityIterations : Int) (positionIterations : Int)

/-- The physics world: its flags, its bodies, and the calls it has received so far, oldest
first. -/
structure b2World (α : Type) where
  gravity : Vec2 α
  allowSleeping : Bool
  continuousPhysics : Bool
  bodies : List (b2Body α)
  calls : List (Call α)

/-- The `Viewport` singleton that `CreatePhysics` initialises. -/
structure Viewport (α : Type) where
  worldSizeMeters : α
  scale : α

/-- The layers `init` adds to the scene. -/
inductive Layer where
  | DebugLinesLayer
  | Box2DDebugDrawLayer
  | GridLayer
  deriving DecidableEq

/-- The members of `MainScene` (`MainScene.h`), the children of the scene node, and the
viewport singleton.  `_world = none` is the world pointer before `CreatePhysics`. -/
structure MainScene (α : Type) where
  _world : Option (b2World α)
  _body : Option Nat
  _ballBody : Option Nat
  children : List Layer
  viewport : Option (Viewport α)

/-- What the environment supplies and `MainScene.cpp` only uses: the constant `M_PI` and the
functions `cosf`, `sinf` of the C library, the project constant `SECONDS_PER_TICK`, and
the two decisions of the rigid-body engine the scene has no control over: whether a
`CreateBody` call made when the world holds `n` bodies returns a body, and what a `Step`
makes of each body (given the step arguments, all bodies before the step, and the index
of the body). -/
structure Host (α : Type) where
  M_PI : α
  cosf : α → α
  sinf : α → α
  SECONDS_PER_TICK : α
  createSucceeds : Nat → Bool
  stepBody : α → Int → Int → List (b2Body α) → Nat → b2Body α → b2Body α

/-- How a function body ends: it ran to its end (`ok`), an `assert` stopped it
(`assertFailed`), or it called a member through a pointer that is `NULL` or refers to no
body (`invalidDeref`).  Each case keeps the state reached at that point. -/
inductive Outcome (σ : Type) where
  | ok (s : σ)
  | assertFailed (s : σ)
  | invalidDeref (s : σ)

/-- Sequencing of statements: the next statement runs only after an `ok`. -/
def Outcome.bind {σ : Type} (r : Outcome σ) (f : σ → Outcome σ) : Outcome σ :=
  match r with
  | .ok s => f s
  | .assertFailed s => .assertFailed s
  | .invalidDeref s => .invalidDeref s

/-- The state an outcome carries. -/
def Outcome.state {σ : Type} : Outcome σ → σ
  | .ok s => s
  | .assertFailed s => s
  | .invalidDeref s => s

/-- Whether an outcome is a failed assertion. -/
def Outcome.isAssertFailed {σ : Type} : Outcome σ → Bool
  | .assertFailed _ => true
  | _ => false

/-- Whether an outcome is a member call through an invalid pointer. -/
def Outcome.isInvalidDeref {σ : Type} : Outcome σ → Bool
  | .invalidDeref _ => true
  | _ => false

/-- The statement `assert(c)`. -/
def assert {σ : Type} (c : Bool) (s : σ) : Outcome σ :=
  if c then .ok s else .assertFailed s

section Engine

variable {α : Type}

/-- Modelled from the spec: the engine's `b2BodyDef` constructor is not in src/; it gives a
static body at the origin, at rest. -/
def b2BodyDef.new [Zero α] : b2BodyDef α :=
  { type := .b2_staticBody, position := ⟨0, 0⟩, linearVelocity := ⟨0, 0⟩,
    angularVelocity := 0 }

/-- Modelled from the spec: the engine's `b2World` constructor is not in src/; the new world
has the given gravity, no body, and has received no call. -/
def b2World.new (gravity : Vec2 α) : b2World α :=
  { gravity := gravity, allowSleeping := true, continuousPhysics := true, bodies := [],
    calls := [] }

/-- Modelled from the spec: `b2World::SetAllowSleeping` is not in src/; it sets the flag. -/
def b2World.SetAllowSleeping (w : b2World α) (flag : Bool) : b2World α :=
  { w with allowSleeping := flag }

/-- Modelled from the spec: `b2World::SetContinuousPhysics` is not in src/; it sets the
flag. -/
def b2World.SetContinuousPhysics (w : b2World α) (flag : Bool) : b2World α :=
  { w with continuousPhysics := flag }

/-- Modelled from the spec: `b2World::CreateBody` is not in src/.  When the engine succeeds
the new body (built from the definition, without fixtures) is added to the world and a
pointer to it is returned; otherwise the world keeps its bodies and `NULL` is returned.
The call is recorded either way. -/
def b2World.CreateBody (h : Host α) (w : b2World α) (bd : b2BodyDef α) :
    b2World α × Option Nat :=
  if h.createSucceeds w.bodies.length then
    ({ w with
        bodies := w.bodies ++ [{ type := bd.type, position := bd.position,
                                 linearVelocity := bd.linearVelocity,
                                 angularVelocity := bd.angularVelocity, fixtures := [] }],
        calls := w.calls ++ [Call.CreateBody bd (some w.bodies.length)] },
      some w.bodies.length)
  else
    ({ w with calls := w.calls ++ [Call.CreateBody bd none] }, none)

/-- Applies `f` to each element together with its index, counting from `i`. -/
def mapFrom {β : Type} (f : Nat → β → β) : Nat → List β → List β
  | _, [] => []
  | i, b :: bs => f i b :: mapFrom f (i + 1) bs

/-- Modelled from the spec: `b2World::Step` is not in src/.  A step creates and destroys no
body; each body becomes what the engine computes for it.  The call is recorded with its
three arguments. -/
def b2World.Step (h : Host α) (w : b2World α) (dt : α) (velocityIterations : Int)
    (positionIterations : Int) : b2World α :=
  { w with
      bodies := mapFrom (h.stepBody dt velocityIterations positionIterations w.bodies) 0
                  w.bodies,
      calls := w.calls ++ [Call.Step dt velocityIterations positionIterations] }

/-- A member call `p->method(...)` on a body of the world: `f` is the effect of the method
on the body and `c` the record of the call.  `none` when `p` is `NULL` or refers to no
body of the world. -/
def b2World.onBody (w : b2World α) (p : Option Nat) (f : b2Body α → b2Body α)
    (c : Nat → Call α) : Option (b2World α) :=
  match p with
  | none => none
  | some i =>
    match w.bodies[i]? with
    | none => none
    | some b => some { w with bodies := w.bodies.set i (f b), calls := w.calls ++ [c i] }

/-- Modelled from the spec: `b2Body::CreateFixture` is not in src/; it attaches a fixture
made from the definition, after the fixtures the body already has. -/
def b2Body.CreateFixture (b : b2Body α) (fd : FixtureDef α) : b2Body α :=
  { b with fixtures := b.fixtures ++ [fd] }

/-- Modelled from the spec: `b2Body::SetAngularVelocity` is not in src/; it sets the angular
velocity of the body. -/
def b2Body.SetAngularVelocity (b : b2Body α) (omega : α) : b2Body α :=
  { b with angularVelocity := omega }

/-- Modelled from the spec: `b2Body::SetLinearVelocity` is not in src/; it sets the linear
velocity of the body. -/
def b2Body.SetLinearVelocity (b : b2Body α) (v : Vec2 α) : b2Body α :=
  { b with linearVelocity := v }

end Engine

/-! ## The scene: `MainScene.cpp` -/

section Scene

variable {α : Type} [LinearOrderedField α]

/-- Modelled from the spec: the engine's `FixtureDef` constructor is not in src/; the shape
pointer starts as `NULL`.  `CreateBody` assigns every field before it uses the
definition. -/
def FixtureDef.new : FixtureDef α :=
  { shape := none, density := 0, friction := 0.2, restitution := 0, isSensor := false }

/-- The scene as the constructor `MainScene::MainScene()` leaves it, before `init`. -/
def MainScene.new : MainScene α :=
  { _world := none, _body := none, _ballBody := none, children := [], viewport := none }

/-- The method `addChild` of the scene node. -/
def MainScene.addChild (s : MainScene α) (l : Layer) : MainScene α :=
  { s with children := s.children ++ [l] }

/-- A statement `p->method(...)` of the scene on one of its bodies. -/
def bodyCall (p : Option Nat) (f : b2Body α → b2Body α) (c : Nat → Call α)
    (s : MainScene α) : Outcome (MainScene α) :=
  match s._world with
  | none => .invalidDeref s
  | some w =>
    match w.onBody p f c with
    | none => .invalidDeref s
    | some w1 => .ok { s with _world := some w1 }

/-- A statement `ptr = _world->CreateBody(&bodyDef)`; `store` assigns the member `ptr`. -/
def worldCreateBody (h : Host α) (bd : b2BodyDef α)
    (store : MainScene α → Option Nat → MainScene α) (s : MainScene α) :
    Outcome (MainScene α) :=
  match s._world with
  | none => .invalidDeref s
  | some w => .ok (store { s with _world := some (w.CreateBody h bd).1 } (w.CreateBody h bd).2)

/-- `MainScene::CreatePhysics`. -/
def CreatePhysics (s : MainScene α) : MainScene α :=
  let worldSizeMeters : α := 10.0
  -- Viewport::Instance().Init(worldSizeMeters); Viewport::Instance().SetScale(1.0);
  let s := { s with viewport := some { worldSizeMeters := worldSizeMeters, scale := 1.0 } }
  let gravity : Vec2 α := ⟨0.0, 0.0⟩
  let w := b2World.new gravity
  let w := w.SetAllowSleeping false
  let w := w.SetContinuousPhysics true
  { s with _world := some w }

/-- The three vertices that one pass of the loop of `CreateBody` pushes, for the loop
index `idx`. -/
def spikeOf (h : Host α) (OUTER_RADIUS : α) (DIVISIONS : Nat) (idx : Nat) : List (Vec2 α) :=
  let SPIKE_DEGREE : α := 2 * h.M_PI / 180
  let angle : α := ((h.M_PI * 2) / (DIVISIONS : α)) * (idx : α)
  [ ⟨OUTER_RADIUS * h.cosf (angle - SPIKE_DEGREE), OUTER_RADIUS * h.sinf (angle - SPIKE_DEGREE)⟩,
    ⟨OUTER_RADIUS * h.cosf angle * 0.98, OUTER_RADIUS * h.sinf angle * 0.98⟩,
    ⟨OUTER_RADIUS * h.cosf (angle + SPIKE_DEGREE), OUTER_RADIUS * h.sinf (angle + SPIKE_DEGREE)⟩ ]

/-- The loop `for(int idx = 0; idx < DIVISIONS; idx++)` of `CreateBody`: the vector
`vertices` when the loop ends. -/
def spikeLoop (h : Host α) (OUTER_RADIUS : α) (DIVISIONS : Nat) : List (Vec2 α) :=
  (List.range DIVISIONS).foldl
    (fun vertices idx => vertices ++ spikeOf h OUTER_RADIUS DIVISIONS idx) []

/-- The vector `vertices` of `CreateBody` after `vertices.push_back(vertices[0])`; `none`
when `vertices[0]` does not exist. -/
def rimVertices (h : Host α) (OUTER_RADIUS : α) (DIVISIONS : Nat) : Option (List (Vec2 α)) :=
  let vertices := spikeLoop h OUTER_RADIUS DIVISIONS
  match vertices[0]? with
  | none => none
  | some v => some (vertices ++ [v])

/-- `MainScene::CreateBody`. -/
def CreateBody (h : Host α) (s : MainScene α) : Outcome (MainScene α) :=
  let INNER_RADIUS : α := 2.50
  let OUTER_RADIUS : α := 3.0
  let BALL_RADIUS : α := 0.1
  let DIVISIONS : Nat := 36
  let position : Vec2 α := ⟨0, 0⟩
  -- Create the body.
  let bodyDef : b2BodyDef α := b2BodyDef.new
  let bodyDef := { bodyDef with position := position }
  let bodyDef := { bodyDef with type := b2BodyType.b2_dynamicBody }
  (worldCreateBody h bodyDef (fun s p => { s with _body := p }) s).bind fun s =>
  (assert (s._body != none) s).bind fun s =>
  -- Now attach fixtures to the body.
  let fixtureDef : FixtureDef α := FixtureDef.new
  let fixtureDef := { fixtureDef with density := 1.0 }
  let fixtureDef := { fixtureDef with friction := 1.0 }
  let fixtureDef := { fixtureDef with restitution := 0.9 }
  let fixtureDef := { fixtureDef with isSensor := false }
  -- Inner circle.
  let circleShape : b2Shape α := b2Shape.circle INNER_RADIUS
  let fixtureDef := { fixtureDef with shape := some circleShape }
  (bodyCall s._body (fun b => b.CreateFixture fixtureDef)
      (fun i => Call.CreateFixture i fixtureDef) s).bind fun s =>
  -- Outer shape.
  match rimVertices h OUTER_RADIUS DIVISIONS with
  | none => .invalidDeref s
  | some vertices =>
  let chainShape : b2Shape α := b2Shape.chain vertices vertices.length
  let fixtureDef := { fixtureDef with shape := some chainShape }
  (bodyCall s._body (fun b => b.CreateFixture fixtureDef)
      (fun i => Call.CreateFixture i fixtureDef) s).bind fun s =>
  -- Start it spinning
  (bodyCall s._body (fun b => b.SetAngularVelocity (h.M_PI / 8))
      (fun i => Call.SetAngularVelocity i (h.M_PI / 8)) s).bind fun s =>
  -- NOW create a ball to bounce around inside...
  let bodyDef := { bodyDef with position := (⟨(INNER_RADIUS + OUTER_RADIUS) / 2, 0⟩ : Vec2 α) }
  (worldCreateBody h bodyDef (fun s p => { s with _ballBody := p }) s).bind fun s =>
  let circleShape : b2Shape α := b2Shape.circle BALL_RADIUS
  let fixtureDef := { fixtureDef with shape := some circleShape }
  (bodyCall s._ballBody (fun b => b.CreateFixture fixtureDef)
      (fun i => Call.CreateFixture i fixtureDef) s).bind fun s =>
  -- Give it some velocity so it starts to bounce.
  bodyCall s._ballBody (fun b => b.SetLinearVelocity ⟨-0.5, 0.5⟩)
      (fun i => Call.SetLinearVelocity i ⟨-0.5, 0.5⟩) s

/-- `MainScene::init`. -/
def init (h : Host α) (s : MainScene α) : Outcome (MainScene α) :=
  -- Create physical world
  let s := CreatePhysics s
  -- Create the body with fixtures
  (CreateBody h s).bind fun s =>
  let s := s.addChild Layer.DebugLinesLayer
  let s := s.addChild Layer.Box2DDebugDrawLayer
  let s := s.addChild Layer.GridLayer
  .ok s

/-- `MainScene::UpdateBody`. -/
def UpdateBody (h : Host α) (s : MainScene α) : Outcome (MainScene α) :=
  bodyCall s._ballBody (fun b => b.SetAngularVelocity h.M_PI)
    (fun i => Call.SetAngularVelocity i h.M_PI) s

/-- `MainScene::UpdatePhysics`. -/
def UpdatePhysics (h : Host α) (s : MainScene α) : Outcome (MainScene α) :=
  let velocityIterations : Int := 8
  let positionIterations : Int := 1
  let fixedDT : α := h.SECONDS_PER_TICK
  match s._world with
  | none => .invalidDeref s
  | some w => .ok { s with _world := some (w.Step h fixedDT velocityIterations positionIterations) }

/-- `MainScene::update`; the argument `dt` is not used by the body. -/
def update (h : Host α) (_dt : α) (s : MainScene α) : Outcome (MainScene α) :=
  (UpdatePhysics h s).bind fun s =>
  UpdateBody h s

/-- The size of a node's content (`CCSize`). -/
structure CCSize (α : Type) where
  width : α
  height : α

/-- The part of a scene-graph node (`CCNode`) that `AdjustNodeScale` reads and writes. -/
structure CCNode (α : Type) where
  contentSize : CCSize α
  scaleX : α
  scaleY : α

/-- Modelled from the spec: `CCNode::getContentSize` is not in src/; it returns the size of
the node's content. -/
def CCNode.getContentSize (node : CCNode α) : CCSize α :=
  node.contentSize

/-- Modelled from the spec: `CCNode::setScale` is not in src/; it sets the uniform scale of
the node, that is the scale along both axes. -/
def CCNode.setScale (node : CCNode α) (scale : α) : CCNode α :=
  { node with scaleX := scale, scaleY := scale }

/-- The local `maxSizePixels` of `AdjustNodeScale`. -/
def maxSizePixels (node : CCNode α) : α :=
  let nodeSize := node.getContentSize
  max nodeSize.width nodeSize.height

/-- The function `AdjustNodeScale`. -/
def AdjustNodeScale (node : CCNode α) (entitySizeMeters : α) (ptmRatio : α) :
    Outcome (CCNode α) :=
  let maxSizePixels : α := maxSizePixels node
  (assert (decide (maxSizePixels ≥ 1.0)) node).bind fun node =>
  let scale : α := entitySizeMeters * ptmRatio / maxSizePixels
  .ok (node.setScale scale)

end Scene

/-! ## Observations on a scene -/

section Observe

variable {α : Type}

/-- The body a pointer of the scene refers to, when there is one. -/
def MainScene.bodyAt (s : MainScene α) (p : Option Nat) : Option (b2Body α) :=
  match s._world, p with
  | some w, some i => w.bodies[i]?
  | _, _ => none

/-- The wheel, `*_body`. -/
def MainScene.wheel (s : MainScene α) : Option (b2Body α) :=
  s.bodyAt s._body

/-- The ball, `*_ballBody`. -/
def MainScene.ball (s : MainScene α) : Option (b2Body α) :=
  s.bodyAt s._ballBody

/-- The calls the world of the scene has received, oldest first. -/
def MainScene.calls (s : MainScene α) : List (Call α) :=
  match s._world with
  | some w => w.calls
  | none => []

/-- Whether a call sets the linear velocity of the body `i`. -/
def Call.setsLinearVelocityOf (i : Nat) : Call α → Bool
  | .SetLinearVelocity j _ => j == i
  | _ => false

/-- The square of the distance of a point from the origin, the centre of the wheel. -/
def Vec2.normSq [Mul α] [Add α] (v : Vec2 α) : α :=
  v.x * v.x + v.y * v.y

/-- The point of the segment from `a` to `b` at parameter `t` (`t = 0` is `a`, `t = 1`
is `b`). -/
def Vec2.lerp [Mul α] [Add α] [Sub α] [One α] (a b : Vec2 α) (t : α) : Vec2 α :=
  ⟨(1 - t) * a.x + t * b.x, (1 - t) * a.y + t * b.y⟩

end Observe

/-! ## Definitions used to state and prove the claims -/

section Expected

variable {α : Type} [LinearOrderedField α]

/-- The first vertex the loop pushes. -/
def firstVertex (h : Host α) (R : α) (D : Nat) : Vec2 α :=
  ⟨R * h.cosf ((h.M_PI * 2) / (D : α) * (0 : Nat) - 2 * h.M_PI / 180),
   R * h.sinf ((h.M_PI * 2) / (D : α) * (0 : Nat) - 2 * h.M_PI / 180)⟩

/-- The definition `CreateBody` attaches first to the wheel. -/
def innerDisc : FixtureDef α :=
  { shape := some (b2Shape.circle 2.50), density := 1.0, friction := 1.0, restitution := 0.9,
    isSensor := false }

/-- The definition `CreateBody` attaches second to the wheel. -/
def rimChain (h : Host α) : FixtureDef α :=
  { shape := some (b2Shape.chain (spikeLoop h 3.0 36 ++ [firstVertex h 3.0 36])
      (spikeLoop h 3.0 36 ++ [firstVertex h 3.0 36]).length),
    density := 1.0, friction := 1.0, restitution := 0.9, isSensor := false }

/-- The definition `CreateBody` attaches to the ball. -/
def ballDisc : FixtureDef α :=
  { shape := some (b2Shape.circle 0.1), density := 1.0, friction := 1.0, restitution := 0.9,
    isSensor := false }

/-- The body definition of the wheel. -/
def wheelDef : b2BodyDef α :=
  { type := b2BodyType.b2_dynamicBody, position := ⟨0, 0⟩, linearVelocity := ⟨0, 0⟩,
    angularVelocity := 0 }

/-- The body definition of the ball. -/
def ballDef : b2BodyDef α :=
  { type := b2BodyType.b2_dynamicBody, position := ⟨(2.50 + 3.0) / 2, 0⟩,
    linearVelocity := ⟨0, 0⟩, angularVelocity := 0 }

/-- The wheel when `CreateBody` ends. -/
def wheelCreated (h : Host α) : b2Body α :=
  { type := b2BodyType.b2_dynamicBody, position := ⟨0, 0⟩, linearVelocity := ⟨0, 0⟩,
    angularVelocity := h.M_PI / 8, fixtures := [innerDisc, rimChain h] }

/-- The ball when `CreateBody` ends. -/
def ballCreated : b2Body α :=
  { type := b2BodyType.b2_dynamicBody, position := ⟨(2.50 + 3.0) / 2, 0⟩,
    linearVelocity := ⟨-0.5, 0.5⟩, angularVelocity := 0, fixtures := [ballDisc] }

/-- The calls of a `CreateBody` in which both bodies are created, for a world that held
`n` bodies. -/
def createCalls (h : Host α) (n : Nat) : List (Call α) :=
  [ Call.CreateBody wheelDef (some n),
    Call.CreateFixture n innerDisc,
    Call.CreateFixture n (rimChain h),
    Call.SetAngularVelocity n (h.M_PI / 8),
    Call.CreateBody ballDef (some (n + 1)),
    Call.CreateFixture (n + 1) ballDisc,
    Call.SetLinearVelocity (n + 1) ⟨-0.5, 0.5⟩ ]

/-- The world `CreatePhysics` makes. -/
def worldCreated : b2World α :=
  { gravity := ⟨0.0, 0.0⟩, allowSleeping := false, continuousPhysics := true, bodies := [],
    calls := [] }

/-- The scene states reached after `init`: the state `init` leaves, and the state any
`update` leaves when it starts from such a state. -/
inductive Reached (h : Host α) : MainScene α → Prop where
  | init (s0 s : MainScene α) (hs : init h s0 = .ok s) : Reached h s
  | update (s s2 : MainScene α) (dt : α) (hr : Reached h s) (hs : update h dt s = .ok s2) :
      Reached h s2

/-- A host whose engine returns every body it is asked for and whose step stops every
rotation: each body leaves the step with angular velocity zero. -/
def stoppingHost (pi : α) (cos : α → α) (sin : α → α) : Host α :=
  { M_PI := pi, cosf := cos, sinf := sin, SECONDS_PER_TICK := 1 / 60,
    createSucceeds := fun _ => true,
    stepBody := fun _ _ _ _ _ b => { b with angularVelocity := 0 } }

/-- A host whose engine returns the first body it is asked for and `NULL` afterwards, and
whose step changes nothing. -/
def oneBodyHost (pi : α) (cos : α → α) (sin : α → α) : Host α :=
  { M_PI := pi, cosf := cos, sinf := sin, SECONDS_PER_TICK := 1 / 60,
    createSucceeds := fun n => decide (n = 0),
    stepBody := fun _ _ _ _ _ b => b }

end Expected

section Plain

variable {α : Type}

/-- A scene that has a world in which `_body` and `_ballBody` point to two bodies. -/
def Ready (s : MainScene α) : Prop :=
  ∃ w i j, s._world = some w ∧ s._body = some i ∧ s._ballBody = some j ∧
    i < w.bodies.length ∧ j < w.bodies.length ∧ i ≠ j

/-- The host `h` with the constant `M_PI` and the functions `cosf`, `sinf` replaced. -/
def Host.withLibm (h : Host α) (pi : α) (cos : α → α) (sin : α → α) : Host α :=
  { h with M_PI := pi, cosf := cos, sinf := sin }

/-- The square of the distance between two points. -/
def Vec2.distSq {α : Type} [Mul α] [Add α] [Sub α] (a b : Vec2 α) : α :=
  (a.x - b.x) * (a.x - b.x) + (a.y - b.y) * (a.y - b.y)

end Plain

/-! ## Lemmas on the rim loop -/

section RimLemmas

variable {α : Type} [LinearOrderedField α]

theorem spikeOf_length (h : Host α) (R : α) (D idx : Nat) :
    (spikeOf h R D idx).length = 3 := rfl

/-- One more pass of the loop appends the three vertices of that pass. -/
theorem foldl_spike_succ (h : Host α) (R : α) (D n : Nat) :
    (List.range (n + 1)).foldl (fun vertices idx => vertices ++ spikeOf h R D idx) []
      = (List.range n).foldl (fun vertices idx => vertices ++ spikeOf h R D idx) []
          ++ spikeOf h R D n := by
  rw [List.range_succ, List.foldl_append]
  rfl

theorem foldl_spike_length (h : Host α) (R : α) (D n : Nat) :
    ((List.range n).foldl (fun vertices idx => vertices ++ spikeOf h R D idx) []).length
      = 3 * n := by
  induction n with
  | zero => rfl
  | succ n ih =>
    rw [foldl_spike_succ, List.length_append, ih, spikeOf_length]
    omega

theorem foldl_spike_getElem? (h : Host α) (R : α) (D n k j : Nat) (hk : k < n) (hj : j < 3) :
    ((List.range n).foldl (fun vertices idx => vertices ++ spikeOf h R D idx) [])[3 * k + j]?
      = (spikeOf h R D k)[j]? := by
  induction n with
  | zero => omega
  | succ n ih =>
    rw [foldl_spike_succ]
    by_cases hkn : k < n
    · rw [List.getElem?_append_left (by rw [foldl_spike_length]; omega)]
      exact ih hkn
    · have hkeq : k = n := by omega
      subst hkeq
      rw [List.getElem?_append_right (by rw [foldl_spike_length]; omega), foldl_spike_length]
      congr 1
      omega

theorem spikeLoop_length (h : Host α) (R : α) (D : Nat) :
    (spikeLoop h R D).length = 3 * D :=
  foldl_spike_length h R D D

theorem spikeLoop_getElem? (h : Host α) (R : α) (D k j : Nat) (hk : k < D) (hj : j < 3) :
    (spikeLoop h R D)[3 * k + j]? = (spikeOf h R D k)[j]? :=
  foldl_spike_getElem? h R D D k j hk hj

theorem spikeLoop_head (h : Host α) (R : α) (D : Nat) (hD : 0 < D) :
    (spikeLoop h R D)[0]? = some (firstVertex h R D) := by
  have := spikeLoop_getElem? h R D 0 0 hD (by omega)
  simpa [spikeOf, firstVertex] using this

theorem rimVertices_eq (h : Host α) (R : α) (D : Nat) (hD : 0 < D) :
    rimVertices h R D = some (spikeLoop h R D ++ [firstVertex h R D]) := by
  simp [rimVertices, spikeLoop_head h R D hD]

end RimLemmas

/-! ## Lemmas on the engine model -/

section EngineLemmas

theorem set_concat_length {β : Type} (l : List β) (a b : β) :
    (l ++ [a]).set l.length b = l ++ [b] := by
  induction l with
  | nil => rfl
  | cons x xs ih => simp [ih]

theorem set_concat2_length {β : Type} (l : List β) (a b c : β) :
    (l ++ [a, b]).set (l.length + 1) c = l ++ [a, c] := by
  induction l with
  | nil => rfl
  | cons x xs ih => simp [ih]

theorem getElem?_concat2_length {β : Type} (l : List β) (a b : β) :
    (l ++ [a, b])[l.length + 1]? = some b := by
  rw [List.getElem?_append_right (by omega)]
  simp

theorem getElem_concat2_length {β : Type} (l : List β) (a b : β)
    (hl : l.length + 1 < (l ++ [a, b]).length) :
    (l ++ [a, b])[l.length + 1] = b := by
  have hq := getElem?_concat2_length l a b
  rw [List.getElem?_eq_getElem hl] at hq
  exact Option.some.inj hq

theorem getElem?_concat2_length_fst {β : Type} (l : List β) (a b : β) :
    (l ++ [a, b])[l.length]? = some a := by
  rw [List.getElem?_append_right (by omega)]
  simp

theorem mapFrom_length {β : Type} (f : Nat → β → β) (i : Nat) (l : List β) :
    (mapFrom f i l).length = l.length := by
  induction l generalizing i with
  | nil => rfl
  | cons x xs ih => simp [mapFrom, ih]

theorem mapFrom_getElem? {β : Type} (f : Nat → β → β) (i j : Nat) (l : List β) :
    (mapFrom f i l)[j]? = (l[j]?).map (f (i + j)) := by
  induction l generalizing i j with
  | nil => simp [mapFrom]
  | cons x xs ih =>
    cases j with
    | zero => simp [mapFrom]
    | succ j =>
      have hij : i + 1 + j = i + (j + 1) := by omega
      simp only [mapFrom, List.getElem?_cons_succ, ih, hij]

end EngineLemmas

/-! ## What `CreateBody` does -/

section CreateLemmas

variable {α : Type} [LinearOrderedField α]

/-- When the world exists and the engine returns both bodies, `CreateBody` runs to its end
and leaves the world with two more bodies. -/
theorem CreateBody_ok (h : Host α) (s0 : MainScene α) (w : b2World α)
    (hw : s0._world = some w)
    (h0 : h.createSucceeds w.bodies.length = true)
    (h1 : h.createSucceeds (w.bodies.length + 1) = true) :
    CreateBody h s0 = .ok
      { s0 with
          _world := some { w with bodies := w.bodies ++ [wheelCreated h, ballCreated],
                                  calls := w.calls ++ createCalls h w.bodies.length },
          _body := some w.bodies.length,
          _ballBody := some (w.bodies.length + 1) } := by
  simp [CreateBody, worldCreateBody, hw, h0, h1, b2World.CreateBody, assert, Outcome.bind,
    bodyCall, b2World.onBody, rimVertices_eq, b2Body.CreateFixture, b2Body.SetAngularVelocity,
    b2Body.SetLinearVelocity, b2BodyDef.new, FixtureDef.new, set_concat_length,
    set_concat2_length, getElem?_concat2_length, getElem_concat2_length, wheelCreated,
    ballCreated, createCalls, innerDisc, rimChain, ballDisc, wheelDef, ballDef]

/-- When the engine returns `NULL` for the wheel, the assertion stops `CreateBody` right
after that call. -/
theorem CreateBody_wheel_null (h : Host α) (s0 : MainScene α) (w : b2World α)
    (hw : s0._world = some w)
    (h0 : h.createSucceeds w.bodies.length = false) :
    CreateBody h s0 = .assertFailed
      { s0 with
          _world := some { w with calls := w.calls ++ [Call.CreateBody wheelDef none] },
          _body := none } := by
  simp [CreateBody, worldCreateBody, hw, h0, b2World.CreateBody, assert, Outcome.bind,
    b2BodyDef.new, wheelDef]

/-- When the engine returns the wheel and then `NULL` for the ball, `CreateBody` goes on
to `_ballBody->CreateFixture(...)` with the `NULL` pointer. -/
theorem CreateBody_ball_null (h : Host α) (s0 : MainScene α) (w : b2World α)
    (hw : s0._world = some w)
    (h0 : h.createSucceeds w.bodies.length = true)
    (h1 : h.createSucceeds (w.bodies.length + 1) = false) :
    CreateBody h s0 = .invalidDeref
      { s0 with
          _world := some { w with
            bodies := w.bodies ++ [wheelCreated h],
            calls := w.calls ++
              [ Call.CreateBody wheelDef (some w.bodies.length),
                Call.CreateFixture w.bodies.length innerDisc,
                Call.CreateFixture w.bodies.length (rimChain h),
                Call.SetAngularVelocity w.bodies.length (h.M_PI / 8),
                Call.CreateBody ballDef none ] },
          _body := some w.bodies.length,
          _ballBody := none } := by
  simp [CreateBody, worldCreateBody, hw, h0, h1, b2World.CreateBody, assert, Outcome.bind,
    bodyCall, b2World.onBody, rimVertices_eq, b2Body.CreateFixture, b2Body.SetAngularVelocity,
    b2BodyDef.new, FixtureDef.new, set_concat_length, wheelCreated, innerDisc, rimChain,
    wheelDef, ballDef]

theorem CreateBody_no_world (h : Host α) (s0 : MainScene α) (hw : s0._world = none) :
    CreateBody h s0 = .invalidDeref s0 := by
  simp [CreateBody, worldCreateBody, hw, Outcome.bind]

/-- `CreateBody` runs to its end only when the world exists and the engine returns both
bodies. -/
theorem CreateBody_ok_inv (h : Host α) (s0 s : MainScene α) (hs : CreateBody h s0 = .ok s) :
    ∃ w, s0._world = some w ∧ h.createSucceeds w.bodies.length = true ∧
      h.createSucceeds (w.bodies.length + 1) = true := by
  cases hw : s0._world with
  | none => rw [CreateBody_no_world h s0 hw] at hs; cases hs
  | some w =>
    refine ⟨w, rfl, ?_⟩
    cases h0 : h.createSucceeds w.bodies.length with
    | false => rw [CreateBody_wheel_null h s0 w hw h0] at hs; cases hs
    | true =>
      cases h1 : h.createSucceeds (w.bodies.length + 1) with
      | false => rw [CreateBody_ball_null h s0 w hw h0 h1] at hs; cases hs
      | true => exact ⟨rfl, rfl⟩

end CreateLemmas

/-! ## What `init` and `update` do -/

section UpdateLemmas

variable {α : Type}

/-- One `update` on a scene with a world and a valid ball pointer: the world takes one
step, then the angular velocity of the ball is set. -/
theorem update_eq (h : Host α) (dt : α) (s : MainScene α) (w : b2World α) (j : Nat)
    (hw : s._world = some w) (hb : s._ballBody = some j) (hj : j < w.bodies.length) :
    ∃ b, w.bodies[j]? = some b ∧
      update h dt s = .ok
        { s with _world := some { w with
            bodies := (mapFrom (h.stepBody h.SECONDS_PER_TICK 8 1 w.bodies) 0 w.bodies).set j
              ((h.stepBody h.SECONDS_PER_TICK 8 1 w.bodies j b).SetAngularVelocity h.M_PI),
            calls := w.calls ++ [Call.Step h.SECONDS_PER_TICK 8 1,
                                 Call.SetAngularVelocity j h.M_PI] } } := by
  refine ⟨w.bodies[j], List.getElem?_eq_getElem hj, ?_⟩
  simp [update, UpdatePhysics, UpdateBody, hw, hb, Outcome.bind, bodyCall, b2World.onBody,
    b2World.Step, mapFrom_getElem?, List.getElem?_eq_getElem hj]

theorem Ready_of_update (h : Host α) (dt : α) (s s2 : MainScene α) (hr : Ready s)
    (hs : update h dt s = .ok s2) : Ready s2 := by
  obtain ⟨w, i, j, hw, hi, hb, hil, hjl, hij⟩ := hr
  obtain ⟨b, _, he⟩ := update_eq h dt s w j hw hb hjl
  rw [he] at hs
  cases hs
  exact ⟨_, i, j, rfl, hi, hb, by simpa [mapFrom_length] using hil,
    by simpa [mapFrom_length] using hjl, hij⟩

end UpdateLemmas

section FrameLemmas

variable {α : Type} [LinearOrderedField α]

theorem CreatePhysics_world (s0 : MainScene α) :
    (CreatePhysics s0)._world = some worldCreated := rfl

/-- When the engine returns both bodies, `init` runs to its end: the world holds the wheel
and the ball, in this order. -/
theorem init_ok (h : Host α) (s0 : MainScene α)
    (h0 : h.createSucceeds 0 = true) (h1 : h.createSucceeds 1 = true) :
    init h s0 = .ok
      { _world := some { (worldCreated : b2World α) with
                           bodies := [wheelCreated h, ballCreated],
                           calls := createCalls h 0 },
        _body := some 0,
        _ballBody := some 1,
        children := s0.children ++
          [Layer.DebugLinesLayer, Layer.Box2DDebugDrawLayer, Layer.GridLayer],
        viewport := some { worldSizeMeters := 10.0, scale := 1.0 } } := by
  simp only [init]
  rw [CreateBody_ok h (CreatePhysics s0) worldCreated (CreatePhysics_world s0) h0 h1]
  simp [Outcome.bind, MainScene.addChild, CreatePhysics, worldCreated]

/-- `init` runs to its end only when the engine returns both bodies. -/
theorem init_ok_inv (h : Host α) (s0 s : MainScene α) (hs : init h s0 = .ok s) :
    h.createSucceeds 0 = true ∧ h.createSucceeds 1 = true := by
  simp only [init] at hs
  cases hc : CreateBody h (CreatePhysics s0) with
  | ok s1 =>
    obtain ⟨w, hw, h0, h1⟩ := CreateBody_ok_inv h _ _ hc
    rw [CreatePhysics_world] at hw
    cases hw
    exact ⟨h0, h1⟩
  | assertFailed s1 => rw [hc] at hs; cases hs
  | invalidDeref s1 => rw [hc] at hs; cases hs

theorem Ready_of_init (h : Host α) (s0 s : MainScene α) (hs : init h s0 = .ok s) :
    Ready s := by
  obtain ⟨h0, h1⟩ := init_ok_inv h s0 s hs
  rw [init_ok h s0 h0 h1] at hs
  cases hs
  exact ⟨_, 0, 1, rfl, rfl, rfl, by simp, by simp, by decide⟩

theorem Ready_of_Reached (h : Host α) (s : MainScene α) (hr : Reached h s) : Ready s := by
  induction hr with
  | init s0 s hs => exact Ready_of_init h s0 s hs
  | update s s2 dt _ hs ih => exact Ready_of_update h dt s s2 ih hs

end FrameLemmas

/-! ## The frame update (claims C1, C2) -/

section FrameClaims

variable {α : Type} [LinearOrderedField α]

/-- C2: for every scene state reached after `init` and every `dt`, one `update` runs to
its end and the calls it makes on the engine are exactly two, in this order: one `Step`
with time step `SECONDS_PER_TICK`, 8 velocity iterations and 1 position iteration, then
the `SetAngularVelocity` of `UpdateBody` on the ball. -/
theorem update_steps_once_first (h : Host α) (s : MainScene α) (dt : α)
    (hr : Reached h s) :
    ∃ s2 j, s._ballBody = some j ∧ update h dt s = .ok s2 ∧
      s2.calls = s.calls ++
        [Call.Step h.SECONDS_PER_TICK 8 1, Call.SetAngularVelocity j h.M_PI] := by
  obtain ⟨w, i, j, hw, hi, hb, hil, hjl, hij⟩ := Ready_of_Reached h s hr
  obtain ⟨b, hbj, he⟩ := update_eq h dt s w j hw hb hjl
  exact ⟨_, j, hb, he, by simp [MainScene.calls, hw]⟩

end FrameClaims

section FrameWitnesses

/-- C2 at a concrete input: the state `init` leaves with the host `stoppingHost` over the
reals is a reached state, and `update` with `dt = 7` makes there the two calls
`update_steps_once_first` says. -/
theorem update_steps_once_first_witness :
    Reached (stoppingHost Real.pi Real.cos Real.sin)
      (init (stoppingHost Real.pi Real.cos Real.sin) MainScene.new).state ∧
    ∃ s2 j, (init (stoppingHost Real.pi Real.cos Real.sin) MainScene.new).state._ballBody
        = some j ∧
      update (stoppingHost Real.pi Real.cos Real.sin) 7
        (init (stoppingHost Real.pi Real.cos Real.sin) MainScene.new).state = .ok s2 ∧
      s2.calls = (init (stoppingHost Real.pi Real.cos Real.sin) MainScene.new).state.calls ++
        [Call.Step (stoppingHost Real.pi Real.cos Real.sin).SECONDS_PER_TICK 8 1,
         Call.SetAngularVelocity j (stoppingHost Real.pi Real.cos Real.sin).M_PI] :=
  have hr : Reached (stoppingHost Real.pi Real.cos Real.sin)
      (init (stoppingHost Real.pi Real.cos Real.sin) MainScene.new).state :=
    Reached.init MainScene.new _ (by rw [init_ok _ _ rfl rfl]; rfl)
  ⟨hr, update_steps_once_first _ _ 7 hr⟩

end FrameWitnesses

/-! ## The bodies `CreateBody` makes (claims C3, C8) -/

section CreateClaims

variable {α : Type} [LinearOrderedField α]

/-- The state `CreateBody` leaves when it runs to its end. -/
theorem CreateBody_ok_state (h : Host α) (s0 s : MainScene α) (hs : CreateBody h s0 = .ok s) :
    ∃ w, s0._world = some w ∧
      s = { s0 with
          _world := some { w with bodies := w.bodies ++ [wheelCreated h, ballCreated],
                                  calls := w.calls ++ createCalls h w.bodies.length },
          _body := some w.bodies.length,
          _ballBody := some (w.bodies.length + 1) } := by
  obtain ⟨w, hw, h0, h1⟩ := CreateBody_ok_inv h s0 s hs
  rw [CreateBody_ok h s0 w hw h0 h1] at hs
  cases hs
  exact ⟨w, hw, rfl⟩

theorem wheel_of_CreateBody (h : Host α) (s0 s : MainScene α)
    (hs : CreateBody h s0 = .ok s) : s.wheel = some (wheelCreated h) := by
  obtain ⟨w, hw, rfl⟩ := CreateBody_ok_state h s0 s hs
  exact getElem?_concat2_length_fst w.bodies (wheelCreated h) ballCreated

theorem ball_of_CreateBody (h : Host α) (s0 s : MainScene α)
    (hs : CreateBody h s0 = .ok s) : s.ball = some ballCreated := by
  obtain ⟨w, hw, rfl⟩ := CreateBody_ok_state h s0 s hs
  exact getElem?_concat2_length w.bodies (wheelCreated h) ballCreated

/-- The vertices of the rim: three for each division, in the order of the divisions. -/
theorem rim_getElem? (h : Host α) (k j : Nat) (hk : k < 36) (hj : j < 3) :
    (spikeLoop h 3.0 36 ++ [firstVertex h 3.0 36])[3 * k + j]? = (spikeOf h 3.0 36 k)[j]? := by
  rw [List.getElem?_append_left (by rw [spikeLoop_length]; omega)]
  exact spikeLoop_getElem? h 3.0 36 k j hk hj

/-- The last vertex of the rim is the closing vertex. -/
theorem rim_getElem?_last (h : Host α) :
    (spikeLoop h 3.0 36 ++ [firstVertex h 3.0 36])[108]? = some (firstVertex h 3.0 36) := by
  rw [List.getElem?_append_right (by rw [spikeLoop_length])]
  simp [spikeLoop_length]

/-- The first vertex of the rim. -/
theorem rim_getElem?_zero (h : Host α) :
    (spikeLoop h 3.0 36 ++ [firstVertex h 3.0 36])[0]? = some (firstVertex h 3.0 36) := by
  rw [List.getElem?_append_left (by rw [spikeLoop_length]; omega)]
  exact spikeLoop_head h 3.0 36 (by omega)

theorem rim_length (h : Host α) :
    (spikeLoop h 3.0 36 ++ [firstVertex h 3.0 36]).length = 109 := by
  rw [List.length_append, spikeLoop_length]
  rfl

/-- C3: when `CreateBody` has run to its end, the second fixture of the wheel is the chain
made by `CreateChain(vertices, count)` where `vertices` has `3*36 + 1 = 109` elements:
for each division `k` of `0..35`, in this order, the three vertices the loop pushes for
`k`, then one closing vertex equal to the first vertex; and `count` is the length of
`vertices`. -/
theorem rim_chain_vertices (h : Host α) (s0 s : MainScene α)
    (hs : CreateBody h s0 = .ok s) :
    ∃ wheel fd vs count,
      s.wheel = some wheel ∧ wheel.fixtures[1]? = some fd ∧
      fd.shape = some (b2Shape.chain vs count) ∧
      vs.length = 3 * 36 + 1 ∧
      (∀ k j, k < 36 → j < 3 → vs[3 * k + j]? = (spikeOf h 3.0 36 k)[j]?) ∧
      (∃ v, vs[0]? = some v ∧ vs[108]? = some v) ∧
      count = vs.length := by
  refine ⟨wheelCreated h, rimChain h, spikeLoop h 3.0 36 ++ [firstVertex h 3.0 36], _,
    wheel_of_CreateBody h s0 s hs, rfl, rfl, rim_length h, ?_, ?_, rfl⟩
  · intro k j hk hj
    exact rim_getElem? h k j hk hj
  · exact ⟨firstVertex h 3.0 36, rim_getElem?_zero h, rim_getElem?_last h⟩

/-- C8: when `CreateBody` has run to its end, the wheel is a dynamic body at the origin
with exactly two fixtures, the circle of radius 2.5 and then the rim chain.  The chain is
the one the loop builds: it has `3*36 + 1 = 109` vertices, at the indices `3k`, `3k+1`,
`3k+2` the three vertices the loop pushes for the division `k` of `0..35`, and it is
closed: its last vertex, at index 108, is its first.  The angular velocity of the wheel is
`M_PI/8`; and no call that `CreateBody` makes sets the linear velocity of the wheel, which
is still the one a new body definition has. -/
theorem wheel_after_CreateBody (h : Host α) (s0 s : MainScene α)
    (hs : CreateBody h s0 = .ok s) :
    ∃ i wheel vs v made,
      s._body = some i ∧ s.wheel = some wheel ∧
      wheel.type = b2BodyType.b2_dynamicBody ∧
      wheel.position.x = 0 ∧ wheel.position.y = 0 ∧
      wheel.fixtures.map FixtureDef.shape
        = [some (b2Shape.circle 2.5), some (b2Shape.chain vs vs.length)] ∧
      vs[0]? = some v ∧ vs.getLast? = some v ∧
      vs.length = 3 * 36 + 1 ∧
      (∀ k : Nat, k < 36 →
        vs[3 * k]? = some
          ⟨3.0 * h.cosf (h.M_PI * 2 / ((36 : Nat) : α) * (k : α) - 2 * h.M_PI / 180),
           3.0 * h.sinf (h.M_PI * 2 / ((36 : Nat) : α) * (k : α) - 2 * h.M_PI / 180)⟩ ∧
        vs[3 * k + 1]? = some
          ⟨3.0 * h.cosf (h.M_PI * 2 / ((36 : Nat) : α) * (k : α)) * 0.98,
           3.0 * h.sinf (h.M_PI * 2 / ((36 : Nat) : α) * (k : α)) * 0.98⟩ ∧
        vs[3 * k + 2]? = some
          ⟨3.0 * h.cosf (h.M_PI * 2 / ((36 : Nat) : α) * (k : α) + 2 * h.M_PI / 180),
           3.0 * h.sinf (h.M_PI * 2 / ((36 : Nat) : α) * (k : α) + 2 * h.M_PI / 180)⟩) ∧
      vs[108]? = some v ∧
      wheel.angularVelocity = h.M_PI / 8 ∧
      s.calls = s0.calls ++ made ∧
      (∀ c ∈ made, Call.setsLinearVelocityOf i c = false) ∧
      wheel.linearVelocity.x = (b2BodyDef.new : b2BodyDef α).linearVelocity.x ∧
      wheel.linearVelocity.y = (b2BodyDef.new : b2BodyDef α).linearVelocity.y := by
  have hwheel := wheel_of_CreateBody h s0 s hs
  obtain ⟨w, hw, rfl⟩ := CreateBody_ok_state h s0 s hs
  refine ⟨w.bodies.length, wheelCreated h, spikeLoop h 3.0 36 ++ [firstVertex h 3.0 36],
    firstVertex h 3.0 36, createCalls h w.bodies.length, rfl, hwheel, rfl, rfl, rfl, ?_,
    rim_getElem?_zero h, ?_, rim_length h, ?_, rim_getElem?_last h, rfl, ?_, ?_, rfl, rfl⟩
  · simp [wheelCreated, innerDisc, rimChain]
    norm_num
  · simp
  · intro k hk
    have e0 := rim_getElem? h k 0 hk (by norm_num)
    have e1 := rim_getElem? h k 1 hk (by norm_num)
    have e2 := rim_getElem? h k 2 hk (by norm_num)
    exact ⟨e0, e1, e2⟩
  · simp [MainScene.calls, hw]
  · intro c hc
    simp only [createCalls, List.mem_cons, List.mem_singleton, List.not_mem_nil,
      or_false] at hc
    rcases hc with rfl | rfl | rfl | rfl | rfl | rfl | rfl <;>
      simp [Call.setsLinearVelocityOf]

end CreateClaims

/-! ## The ball `CreateBody` makes (claim C9) -/

section BallClaims

end BallClaims

/-! ## `AdjustNodeScale` (claims C5, C6) -/

section ScaleClaims

variable {α : Type} [LinearOrderedField α]

theorem maxSizePixels_eq (node : CCNode α) :
    maxSizePixels node = max node.contentSize.width node.contentSize.height := rfl

theorem AdjustNodeScale_pass (node : CCNode α) (e p : α) (hm : 1 ≤ maxSizePixels node) :
    AdjustNodeScale node e p = .ok (node.setScale (e * p / maxSizePixels node)) := by
  have hm1 : (1.0 : α) ≤ maxSizePixels node := by norm_num; exact hm
  simp [AdjustNodeScale, assert, Outcome.bind, hm1]

theorem AdjustNodeScale_fail (node : CCNode α) (e p : α) (hm : maxSizePixels node < 1) :
    AdjustNodeScale node e p = .assertFailed node := by
  have hm1 : ¬ (1.0 : α) ≤ maxSizePixels node := by norm_num; exact hm
  simp [AdjustNodeScale, assert, Outcome.bind, hm1]

/-- C5: for a node whose larger content dimension `m = max(width, height)` is at
least 1, `AdjustNodeScale` runs to its end and sets the scale of the node, along both axes,
to `entitySizeMeters*ptmRatio/m`, so that the scale times `m` is
`entitySizeMeters*ptmRatio`; the content size is not changed. -/
theorem AdjustNodeScale_sets_scale (node : CCNode α) (entitySizeMeters ptmRatio : α)
    (hm : 1 ≤ max node.contentSize.width node.contentSize.height) :
    ∃ node2, AdjustNodeScale node entitySizeMeters ptmRatio = .ok node2 ∧
      node2.scaleX = entitySizeMeters * ptmRatio /
        max node.contentSize.width node.contentSize.height ∧
      node2.scaleY = node2.scaleX ∧
      node2.scaleX * max node.contentSize.width node.contentSize.height
        = entitySizeMeters * ptmRatio ∧
      node2.contentSize = node.contentSize := by
  have hpos : max node.contentSize.width node.contentSize.height ≠ 0 := by
    have : (0 : α) < max node.contentSize.width node.contentSize.height :=
      lt_of_lt_of_le zero_lt_one hm
    exact ne_of_gt this
  refine ⟨_, AdjustNodeScale_pass node entitySizeMeters ptmRatio hm, rfl, rfl, ?_, rfl⟩
  simp only [CCNode.setScale, maxSizePixels_eq]
  exact div_mul_cancel₀ _ hpos

/-- C6: the assertion of `AdjustNodeScale` fails exactly when `max(width, height)` is less
than 1; then the function stops with the node as it was; otherwise it sets the scale, and
whenever the assertion does not fail the divisor `maxSizePixels` is not zero. -/
theorem AdjustNodeScale_assertion (node : CCNode α) (entitySizeMeters ptmRatio : α) :
    ((AdjustNodeScale node entitySizeMeters ptmRatio).isAssertFailed = true ↔
      max node.contentSize.width node.contentSize.height < 1) ∧
    AdjustNodeScale node entitySizeMeters ptmRatio =
      (if max node.contentSize.width node.contentSize.height < 1 then .assertFailed node
       else .ok (node.setScale (entitySizeMeters * ptmRatio / maxSizePixels node))) ∧
    ((AdjustNodeScale node entitySizeMeters ptmRatio).isAssertFailed = true ∨
      maxSizePixels node ≠ 0) := by
  by_cases hm : max node.contentSize.width node.contentSize.height < 1
  · have hf := AdjustNodeScale_fail node entitySizeMeters ptmRatio hm
    refine ⟨?_, ?_, Or.inl ?_⟩
    · rw [hf]; simp [Outcome.isAssertFailed, hm]
    · rw [hf, if_pos hm]
    · rw [hf]; rfl
  · have hm1 : 1 ≤ maxSizePixels node := not_lt.mp hm
    have hp := AdjustNodeScale_pass node entitySizeMeters ptmRatio hm1
    refine ⟨?_, ?_, Or.inr ?_⟩
    · rw [hp]; simp [Outcome.isAssertFailed, hm]
    · rw [hp, if_neg hm]
    · exact ne_of_gt (lt_of_lt_of_le zero_lt_one hm1)

end ScaleClaims

section ScaleWitnesses

/-- C5 at a concrete input: a sprite of 64 by 32 pixels, for an entity of 2 metres at 16
pixels per metre; the scale becomes `2*16/64`. -/
theorem AdjustNodeScale_sets_scale_witness :
    (1 : ℚ) ≤ max (CCNode.mk ⟨64, 32⟩ 1 1 : CCNode ℚ).contentSize.width
      (CCNode.mk ⟨64, 32⟩ 1 1 : CCNode ℚ).contentSize.height ∧
    ∃ node2, AdjustNodeScale (CCNode.mk ⟨64, 32⟩ 1 1 : CCNode ℚ) 2 16 = .ok node2 ∧
      node2.scaleX = 2 * 16 /
        max (CCNode.mk ⟨64, 32⟩ 1 1 : CCNode ℚ).contentSize.width
          (CCNode.mk ⟨64, 32⟩ 1 1 : CCNode ℚ).contentSize.height ∧
      node2.scaleY = node2.scaleX ∧
      node2.scaleX * max (CCNode.mk ⟨64, 32⟩ 1 1 : CCNode ℚ).contentSize.width
          (CCNode.mk ⟨64, 32⟩ 1 1 : CCNode ℚ).contentSize.height
        = 2 * 16 ∧
      node2.contentSize = (CCNode.mk ⟨64, 32⟩ 1 1 : CCNode ℚ).contentSize :=
  ⟨by norm_num, AdjustNodeScale_sets_scale (CCNode.mk ⟨64, 32⟩ 1 1 : CCNode ℚ) 2 16
    (by norm_num)⟩

end ScaleWitnesses

/-! ## The assertion of `CreateBody` (claim C7) -/

section AssertClaims

/-- The wheel path of `CreateBody`: when the engine returns `NULL` for the first body,
`init` stops at the assertion, and the only call the world has received is that
`CreateBody`. -/
theorem init_wheel_null_asserted (pi : ℝ) (cos sin : ℝ → ℝ) (s0 : MainScene ℝ) :
    (init { stoppingHost pi cos sin with createSucceeds := fun _ => false } s0).isAssertFailed
      = true ∧
    (init { stoppingHost pi cos sin with createSucceeds := fun _ => false } s0).state.calls
      = [Call.CreateBody wheelDef none] := by
  simp only [init]
  rw [CreateBody_wheel_null _ (CreatePhysics s0) worldCreated (CreatePhysics_world s0) rfl]
  simp [Outcome.bind, Outcome.isAssertFailed, Outcome.state, MainScene.calls, worldCreated]

/-- C7, the ball: when the engine returns the wheel and then `NULL` for the ball, `init`
is not stopped by an assertion: it goes on to `_ballBody->CreateFixture(...)` with
`_ballBody` equal to `NULL`, right after the `CreateBody` call that returned `NULL`. -/
theorem init_ball_null_not_asserted :
    (init (oneBodyHost Real.pi Real.cos Real.sin) MainScene.new).isAssertFailed = false ∧
    (init (oneBodyHost Real.pi Real.cos Real.sin) MainScene.new).isInvalidDeref = true ∧
    (init (oneBodyHost Real.pi Real.cos Real.sin) MainScene.new).state._ballBody = none ∧
    (init (oneBodyHost Real.pi Real.cos Real.sin) MainScene.new).state.calls.getLast?
      = some (Call.CreateBody ballDef none) := by
  simp only [init]
  rw [CreateBody_ball_null _ (CreatePhysics MainScene.new) worldCreated
    (CreatePhysics_world MainScene.new) rfl rfl]
  simp [Outcome.bind, Outcome.isAssertFailed, Outcome.isInvalidDeref, Outcome.state,
    MainScene.calls, worldCreated]

end AssertClaims

/-! ## The geometry of the rim over the reals (claims C4, C10) -/

section RimGeometry

open Real

theorem cos_spike_bound : (0.98 : ℝ) ≤ Real.cos (2 * Real.pi / 180) := by
  have h1 := Real.one_sub_sq_div_two_le_cos (x := 2 * Real.pi / 180)
  have h2 := Real.pi_lt_d2
  have h3 := Real.pi_pos
  have h4 : (2 * Real.pi / 180) ^ 2 ≤ 0.04 := by
    have : 2 * Real.pi / 180 ≤ 0.2 := by norm_num at h2 ⊢; linarith
    have h5 : 0 ≤ 2 * Real.pi / 180 := by positivity
    nlinarith
  norm_num at h1 h4 ⊢
  linarith

theorem cos_gap_bound : (0.93 : ℝ) ≤ Real.cos (Real.pi / 30) := by
  have h1 := Real.one_sub_sq_div_two_le_cos (x := Real.pi / 30)
  have h2 := Real.pi_lt_d2
  have h3 := Real.pi_pos
  have h4 : (Real.pi / 30) ^ 2 ≤ 0.04 := by
    have : Real.pi / 30 ≤ 0.2 := by norm_num at h2 ⊢; linarith
    have h5 : 0 ≤ Real.pi / 30 := by positivity
    nlinarith
  norm_num at h1 h4 ⊢
  linarith

/-- A point at distance `r` from the origin. -/
theorem normSq_polar (r a : ℝ) :
    Vec2.normSq (⟨r * Real.cos a, r * Real.sin a⟩ : Vec2 ℝ) = r ^ 2 := by
  simp only [Vec2.normSq]
  have h1 := Real.cos_sq_add_sin_sq a
  linear_combination (r ^ 2) * h1

/-- The rim vertex in the middle of a spike is at distance `2.94` from the origin. -/
theorem normSq_polar_mid (a : ℝ) :
    Vec2.normSq (⟨3.0 * Real.cos a * 0.98, 3.0 * Real.sin a * 0.98⟩ : Vec2 ℝ) = 2.94 ^ 2 := by
  simp only [Vec2.normSq]
  have h1 := Real.cos_sq_add_sin_sq a
  linear_combination (2.94 ^ 2) * h1

/-- A segment from an outer vertex to the middle vertex of a spike stays at distance at
least `2.94` from the origin. -/
theorem spike_segment_bound (a b t : ℝ) (hc : 0.98 ≤ Real.cos (a - b)) (ht0 : 0 ≤ t)
    (ht1 : t ≤ 1) :
    (2.94 : ℝ) ^ 2 ≤ Vec2.normSq (Vec2.lerp (⟨3.0 * Real.cos a, 3.0 * Real.sin a⟩ : Vec2 ℝ)
      ⟨3.0 * Real.cos b * 0.98, 3.0 * Real.sin b * 0.98⟩ t) := by
  simp only [Vec2.normSq, Vec2.lerp]
  rw [Real.cos_sub] at hc
  have h1 := Real.cos_sq_add_sin_sq a
  have h2 := Real.cos_sq_add_sin_sq b
  have key : ((1 - t) * (3.0 * Real.cos a) + t * (3.0 * Real.cos b * 0.98)) *
        ((1 - t) * (3.0 * Real.cos a) + t * (3.0 * Real.cos b * 0.98)) +
      ((1 - t) * (3.0 * Real.sin a) + t * (3.0 * Real.sin b * 0.98)) *
        ((1 - t) * (3.0 * Real.sin a) + t * (3.0 * Real.sin b * 0.98))
      = 9 * (1 - t) ^ 2 + 2.94 ^ 2 * t ^ 2 +
          17.64 * (t * (1 - t)) * (Real.cos a * Real.cos b + Real.sin a * Real.sin b) := by
    linear_combination (9 * (1 - t) ^ 2) * h1 + (2.94 ^ 2 * t ^ 2) * h2
  rw [key]
  have h3 : 0 ≤ t * (1 - t) := mul_nonneg ht0 (by linarith)
  have h4 : 0 ≤ (t * (1 - t)) * (Real.cos a * Real.cos b + Real.sin a * Real.sin b - 0.98) :=
    mul_nonneg h3 (by linarith)
  nlinarith [sq_nonneg (1 - t)]

/-- A segment from the middle vertex of a spike to an outer vertex stays at distance at
least `2.94` from the origin. -/
theorem spike_segment_bound_rev (a b t : ℝ) (hc : 0.98 ≤ Real.cos (a - b)) (ht0 : 0 ≤ t)
    (ht1 : t ≤ 1) :
    (2.94 : ℝ) ^ 2 ≤ Vec2.normSq (Vec2.lerp
      (⟨3.0 * Real.cos b * 0.98, 3.0 * Real.sin b * 0.98⟩ : Vec2 ℝ)
      ⟨3.0 * Real.cos a, 3.0 * Real.sin a⟩ t) := by
  have hb := spike_segment_bound a b (1 - t) hc (by linarith) (by linarith)
  simp only [Vec2.normSq, Vec2.lerp] at hb ⊢
  have e1 : (1 - t) * (3.0 * Real.cos b * 0.98) + t * (3.0 * Real.cos a)
      = (1 - (1 - t)) * (3.0 * Real.cos a) + (1 - t) * (3.0 * Real.cos b * 0.98) := by ring
  have e2 : (1 - t) * (3.0 * Real.sin b * 0.98) + t * (3.0 * Real.sin a)
      = (1 - (1 - t)) * (3.0 * Real.sin a) + (1 - t) * (3.0 * Real.sin b * 0.98) := by ring
  rw [e1, e2]
  exact hb

/-- A segment between two outer vertices that are near enough stays at distance at least
`2.94` from the origin. -/
theorem gap_segment_bound (a b t : ℝ) (hc : 0.93 ≤ Real.cos (a - b)) (ht0 : 0 ≤ t)
    (ht1 : t ≤ 1) :
    (2.94 : ℝ) ^ 2 ≤ Vec2.normSq (Vec2.lerp (⟨3.0 * Real.cos a, 3.0 * Real.sin a⟩ : Vec2 ℝ)
      ⟨3.0 * Real.cos b, 3.0 * Real.sin b⟩ t) := by
  simp only [Vec2.normSq, Vec2.lerp]
  rw [Real.cos_sub] at hc
  have h1 := Real.cos_sq_add_sin_sq a
  have h2 := Real.cos_sq_add_sin_sq b
  have key : ((1 - t) * (3.0 * Real.cos a) + t * (3.0 * Real.cos b)) *
        ((1 - t) * (3.0 * Real.cos a) + t * (3.0 * Real.cos b)) +
      ((1 - t) * (3.0 * Real.sin a) + t * (3.0 * Real.sin b)) *
        ((1 - t) * (3.0 * Real.sin a) + t * (3.0 * Real.sin b))
      = 9 * (1 - t) ^ 2 + 9 * t ^ 2 +
          18 * (t * (1 - t)) * (Real.cos a * Real.cos b + Real.sin a * Real.sin b) := by
    linear_combination (9 * (1 - t) ^ 2) * h1 + (9 * t ^ 2) * h2
  rw [key]
  have h3 : 0 ≤ t * (1 - t) := mul_nonneg ht0 (by linarith)
  have h4 : 0 ≤ (t * (1 - t)) * (Real.cos a * Real.cos b + Real.sin a * Real.sin b - 0.93) :=
    mul_nonneg h3 (by linarith)
  nlinarith [sq_nonneg (t - 1 / 2)]

end RimGeometry

section RimClaims

open Real

/-- The three vertices of division `idx`, with the real `cos`, `sin` and `π`. -/
theorem spikeOf_real (h : Host ℝ) (idx : Nat) :
    spikeOf (h.withLibm Real.pi Real.cos Real.sin) 3.0 36 idx =
      [ ⟨3.0 * Real.cos (Real.pi * 2 / ((36 : ℕ) : ℝ) * (idx : ℝ) - 2 * Real.pi / 180),
         3.0 * Real.sin (Real.pi * 2 / ((36 : ℕ) : ℝ) * (idx : ℝ) - 2 * Real.pi / 180)⟩,
        ⟨3.0 * Real.cos (Real.pi * 2 / ((36 : ℕ) : ℝ) * (idx : ℝ)) * 0.98,
         3.0 * Real.sin (Real.pi * 2 / ((36 : ℕ) : ℝ) * (idx : ℝ)) * 0.98⟩,
        ⟨3.0 * Real.cos (Real.pi * 2 / ((36 : ℕ) : ℝ) * (idx : ℝ) + 2 * Real.pi / 180),
         3.0 * Real.sin (Real.pi * 2 / ((36 : ℕ) : ℝ) * (idx : ℝ) + 2 * Real.pi / 180)⟩ ] :=
  rfl

theorem firstVertex_real (h : Host ℝ) :
    firstVertex (h.withLibm Real.pi Real.cos Real.sin) 3.0 36 =
      ⟨3.0 * Real.cos (Real.pi * 2 / ((36 : ℕ) : ℝ) * ((0 : ℕ) : ℝ) - 2 * Real.pi / 180),
       3.0 * Real.sin (Real.pi * 2 / ((36 : ℕ) : ℝ) * ((0 : ℕ) : ℝ) - 2 * Real.pi / 180)⟩ :=
  rfl

/-- Every point of every segment between two consecutive rim vertices is at distance at
least `2.94` from the origin (squared form). -/
theorem rim_segment_normSq (h : Host ℝ) (i : Nat) (a b : Vec2 ℝ) (t : ℝ)
    (ha : (spikeLoop (h.withLibm Real.pi Real.cos Real.sin) 3.0 36 ++
      [firstVertex (h.withLibm Real.pi Real.cos Real.sin) 3.0 36])[i]? = some a)
    (hb : (spikeLoop (h.withLibm Real.pi Real.cos Real.sin) 3.0 36 ++
      [firstVertex (h.withLibm Real.pi Real.cos Real.sin) 3.0 36])[i + 1]? = some b)
    (ht0 : 0 ≤ t) (ht1 : t ≤ 1) :
    (2.94 : ℝ) ^ 2 ≤ Vec2.normSq (Vec2.lerp a b t) := by
  have hi : i + 1 < 109 := by
    have hlt := (List.getElem?_eq_some.mp hb).1
    rwa [rim_length] at hlt
  obtain ⟨k, j, hj, rfl⟩ : ∃ k j, j < 3 ∧ i = 3 * k + j :=
    ⟨i / 3, i % 3, Nat.mod_lt _ (by norm_num), by omega⟩
  have hk : k < 36 := by omega
  have hspike : (0.98 : ℝ) ≤ Real.cos (2 * Real.pi / 180) := cos_spike_bound
  interval_cases j
  · -- from the first vertex of a spike to the middle one
    rw [rim_getElem? _ k 0 hk (by norm_num), spikeOf_real] at ha
    have hb1 : 3 * k + 0 + 1 = 3 * k + 1 := by omega
    rw [hb1, rim_getElem? _ k 1 hk (by norm_num), spikeOf_real] at hb
    simp only [List.getElem?_cons_zero, List.getElem?_cons_succ, Option.some.injEq] at ha hb
    subst ha; subst hb
    apply spike_segment_bound _ _ t _ ht0 ht1
    have hd : Real.pi * 2 / ((36 : ℕ) : ℝ) * (k : ℝ) - 2 * Real.pi / 180
        - Real.pi * 2 / ((36 : ℕ) : ℝ) * (k : ℝ) = -(2 * Real.pi / 180) := by ring
    rw [hd, Real.cos_neg]
    exact hspike
  · -- from the middle vertex of a spike to the last one
    rw [rim_getElem? _ k 1 hk (by norm_num), spikeOf_real] at ha
    have hb1 : 3 * k + 1 + 1 = 3 * k + 2 := by omega
    rw [hb1, rim_getElem? _ k 2 hk (by norm_num), spikeOf_real] at hb
    simp only [List.getElem?_cons_zero, List.getElem?_cons_succ, Option.some.injEq] at ha hb
    subst ha; subst hb
    apply spike_segment_bound_rev _ _ t _ ht0 ht1
    have hd : Real.pi * 2 / ((36 : ℕ) : ℝ) * (k : ℝ) + 2 * Real.pi / 180
        - Real.pi * 2 / ((36 : ℕ) : ℝ) * (k : ℝ) = 2 * Real.pi / 180 := by ring
    rw [hd]
    exact hspike
  · -- from the last vertex of a spike to the first vertex of the next one
    rw [rim_getElem? _ k 2 hk (by norm_num), spikeOf_real] at ha
    simp only [List.getElem?_cons_zero, List.getElem?_cons_succ, Option.some.injEq] at ha
    subst ha
    by_cases hk35 : k < 35
    · have hb1 : 3 * k + 2 + 1 = 3 * (k + 1) + 0 := by omega
      rw [hb1, rim_getElem? _ (k + 1) 0 (by omega) (by norm_num), spikeOf_real] at hb
      simp only [List.getElem?_cons_zero, Option.some.injEq] at hb
      subst hb
      apply gap_segment_bound _ _ t _ ht0 ht1
      have hd : Real.pi * 2 / ((36 : ℕ) : ℝ) * (k : ℝ) + 2 * Real.pi / 180
          - (Real.pi * 2 / ((36 : ℕ) : ℝ) * ((k + 1 : ℕ) : ℝ) - 2 * Real.pi / 180)
          = -(Real.pi / 30) := by
        push_cast
        ring
      rw [hd, Real.cos_neg]
      exact cos_gap_bound
    · have hk35e : k = 35 := by omega
      subst hk35e
      have hb1 : 3 * 35 + 2 + 1 = 108 := by norm_num
      rw [hb1, rim_getElem?_last, firstVertex_real] at hb
      simp only [Option.some.injEq] at hb
      subst hb
      apply gap_segment_bound _ _ t _ ht0 ht1
      have hd : Real.pi * 2 / ((36 : ℕ) : ℝ) * ((35 : ℕ) : ℝ) + 2 * Real.pi / 180
          - (Real.pi * 2 / ((36 : ℕ) : ℝ) * ((0 : ℕ) : ℝ) - 2 * Real.pi / 180)
          = 2 * Real.pi - Real.pi / 30 := by
        push_cast
        ring
      rw [hd, Real.cos_two_pi_sub]
      exact cos_gap_bound

end RimClaims

section RimTheorems

open Real

/-- C4: with the real `cos`, `sin` and `π`, when `CreateBody` has run to its end the chain
of the wheel holds, for every division `k` of `0..35`, with `θ = (2π/36)·k` and
`δ = 2π/180`, at the indices `3k`, `3k+1`, `3k+2` the points `3.0·(cos(θ-δ), sin(θ-δ))`,
`0.98·3.0·(cos θ, sin θ)` and `3.0·(cos(θ+δ), sin(θ+δ))`; the second is at distance 2.94
from the centre of the wheel and the two others at distance 3.0. -/
theorem rim_vertex_positions (h : Host ℝ) (s0 s : MainScene ℝ)
    (hs : CreateBody (h.withLibm Real.pi Real.cos Real.sin) s0 = .ok s) :
    ∃ wheel fd vs count,
      s.wheel = some wheel ∧ wheel.fixtures[1]? = some fd ∧
      fd.shape = some (b2Shape.chain vs count) ∧
      ∀ k : Nat, k < 36 →
        ∃ v0 v1 v2 : Vec2 ℝ,
          vs[3 * k]? = some v0 ∧ vs[3 * k + 1]? = some v1 ∧ vs[3 * k + 2]? = some v2 ∧
          v0.x = 3.0 * Real.cos (2 * Real.pi / 36 * k - 2 * Real.pi / 180) ∧
          v0.y = 3.0 * Real.sin (2 * Real.pi / 36 * k - 2 * Real.pi / 180) ∧
          v1.x = 0.98 * 3.0 * Real.cos (2 * Real.pi / 36 * k) ∧
          v1.y = 0.98 * 3.0 * Real.sin (2 * Real.pi / 36 * k) ∧
          v2.x = 3.0 * Real.cos (2 * Real.pi / 36 * k + 2 * Real.pi / 180) ∧
          v2.y = 3.0 * Real.sin (2 * Real.pi / 36 * k + 2 * Real.pi / 180) ∧
          Real.sqrt v1.normSq = 2.94 ∧ Real.sqrt v0.normSq = 3.0 ∧
          Real.sqrt v2.normSq = 3.0 := by
  refine ⟨_, rimChain _, _, _, wheel_of_CreateBody _ s0 s hs, rfl, rfl, ?_⟩
  intro k hk
  have e0 := rim_getElem? (h.withLibm Real.pi Real.cos Real.sin) k 0 hk (by norm_num)
  have e1 := rim_getElem? (h.withLibm Real.pi Real.cos Real.sin) k 1 hk (by norm_num)
  have e2 := rim_getElem? (h.withLibm Real.pi Real.cos Real.sin) k 2 hk (by norm_num)
  rw [spikeOf_real] at e0 e1 e2
  simp only [List.getElem?_cons_zero, List.getElem?_cons_succ, Nat.add_zero] at e0 e1 e2
  have hang : Real.pi * 2 / ((36 : ℕ) : ℝ) * (k : ℝ) = 2 * Real.pi / 36 * k := by
    push_cast
    ring
  refine ⟨_, _, _, e0, e1, e2, ?_, ?_, ?_, ?_, ?_, ?_, ?_, ?_, ?_⟩
  · simp only [hang]
  · simp only [hang]
  · simp only [hang]; ring
  · simp only [hang]; ring
  · simp only [hang]
  · simp only [hang]
  · rw [normSq_polar_mid, Real.sqrt_sq (by norm_num)]
  · rw [normSq_polar, Real.sqrt_sq (by norm_num)]
  · rw [normSq_polar, Real.sqrt_sq (by norm_num)]

/-- Every point of the disc of the ball is at distance between `2.65` and `2.85` from the
origin (squared form). -/
theorem ball_disc_normSq (q : Vec2 ℝ)
    (hq : Vec2.distSq q (ballCreated : b2Body ℝ).position ≤ 0.1 ^ 2) :
    (2.65 : ℝ) ^ 2 ≤ q.normSq ∧ q.normSq ≤ 2.85 ^ 2 := by
  simp only [Vec2.distSq, ballCreated, Vec2.normSq] at hq ⊢
  have hx : (q.x - (2.50 + 3.0) / 2) * (q.x - (2.50 + 3.0) / 2) ≤ 0.1 ^ 2 := by
    nlinarith [mul_self_nonneg (q.y - 0)]
  have hx1 : (2.65 : ℝ) ≤ q.x := by
    by_contra hlt
    push_neg at hlt
    nlinarith
  have hx2 : q.x ≤ (2.85 : ℝ) := by
    by_contra hlt
    push_neg at hlt
    nlinarith
  constructor
  · nlinarith [mul_self_nonneg q.y]
  · nlinarith

/-- C10: with the real `cos`, `sin` and `π`, when `CreateBody` has run to its end, every
point of every segment between two consecutive vertices of the rim chain (109 vertices)
is at distance at least `0.98·3.0 = 2.94` from the centre of the wheel, and every point of
the disc of the ball (centre `(2.75, 0)`, radius `0.1`) is at distance at least `2.65` and
at most `2.85` from it; so no point of the disc of the ball is in the inner disc of
radius `2.5` or on the rim chain. -/
theorem ball_clear_of_wheel (h : Host ℝ) (s0 s : MainScene ℝ)
    (hs : CreateBody (h.withLibm Real.pi Real.cos Real.sin) s0 = .ok s) :
    ∃ wheel ball vs count,
      s.wheel = some wheel ∧ s.ball = some ball ∧
      wheel.fixtures.map FixtureDef.shape
        = [some (b2Shape.circle 2.5), some (b2Shape.chain vs count)] ∧
      ball.fixtures.map FixtureDef.shape = [some (b2Shape.circle 0.1)] ∧
      ball.position.x = 2.75 ∧ ball.position.y = 0 ∧
      wheel.position.x = 0 ∧ wheel.position.y = 0 ∧
      vs.length = 109 ∧
      (0.98 * 3.0 : ℝ) = 2.94 ∧
      (∀ (i : Nat) (a b : Vec2 ℝ) (t : ℝ), vs[i]? = some a → vs[i + 1]? = some b →
        0 ≤ t → t ≤ 1 → 0.98 * 3.0 ≤ Real.sqrt (Vec2.lerp a b t).normSq) ∧
      (∀ q : Vec2 ℝ, Real.sqrt (Vec2.distSq q ball.position) ≤ 0.1 →
        2.65 ≤ Real.sqrt q.normSq ∧ Real.sqrt q.normSq ≤ 2.85 ∧
        ¬ Real.sqrt q.normSq ≤ 2.5 ∧
        ∀ (i : Nat) (a b : Vec2 ℝ) (t : ℝ), vs[i]? = some a → vs[i + 1]? = some b →
          0 ≤ t → t ≤ 1 → q ≠ Vec2.lerp a b t) := by
  have hseg : ∀ (i : Nat) (a b : Vec2 ℝ) (t : ℝ),
      (spikeLoop (h.withLibm Real.pi Real.cos Real.sin) 3.0 36 ++
        [firstVertex (h.withLibm Real.pi Real.cos Real.sin) 3.0 36])[i]? = some a →
      (spikeLoop (h.withLibm Real.pi Real.cos Real.sin) 3.0 36 ++
        [firstVertex (h.withLibm Real.pi Real.cos Real.sin) 3.0 36])[i + 1]? = some b →
      0 ≤ t → t ≤ 1 → 0.98 * 3.0 ≤ Real.sqrt (Vec2.lerp a b t).normSq := by
    intro i a b t ha hb ht0 ht1
    have hn := rim_segment_normSq h i a b t ha hb ht0 ht1
    rw [Real.le_sqrt (by norm_num)]
    · norm_num at hn ⊢
      exact hn
    · simp only [Vec2.normSq]
      positivity
  have hdisc : ∀ q : Vec2 ℝ,
      Real.sqrt (Vec2.distSq q (ballCreated : b2Body ℝ).position) ≤ 0.1 →
      2.65 ≤ Real.sqrt q.normSq ∧ Real.sqrt q.normSq ≤ 2.85 := by
    intro q hq
    have hq2 : Vec2.distSq q (ballCreated : b2Body ℝ).position ≤ 0.1 ^ 2 :=
      (Real.sqrt_le_left (by norm_num)).mp hq
    obtain ⟨hlo, hhi⟩ := ball_disc_normSq q hq2
    exact ⟨(Real.le_sqrt' (by norm_num)).mpr hlo, (Real.sqrt_le_left (by norm_num)).mpr hhi⟩
  refine ⟨wheelCreated _, ballCreated,
    spikeLoop (h.withLibm Real.pi Real.cos Real.sin) 3.0 36 ++
      [firstVertex (h.withLibm Real.pi Real.cos Real.sin) 3.0 36],
    (spikeLoop (h.withLibm Real.pi Real.cos Real.sin) 3.0 36 ++
      [firstVertex (h.withLibm Real.pi Real.cos Real.sin) 3.0 36]).length,
    wheel_of_CreateBody _ s0 s hs,
    ball_of_CreateBody _ s0 s hs, ?_, ?_, ?_, rfl, rfl, rfl, rim_length _, by norm_num, hseg, ?_⟩
  · simp [wheelCreated, innerDisc, rimChain]
    norm_num
  · simp [ballCreated, ballDisc]
  · simp only [ballCreated]
    norm_num
  · intro q hq
    obtain ⟨hlo, hhi⟩ := hdisc q hq
    refine ⟨hlo, hhi, ?_, ?_⟩
    · intro hle
      have : (2.65 : ℝ) ≤ 2.5 := le_trans hlo hle
      norm_num at this
    · intro i a b t ha hb ht0 ht1 hqe
      have hfar := hseg i a b t ha hb ht0 ht1
      rw [← hqe] at hfar
      have : (0.98 * 3.0 : ℝ) ≤ 2.85 := le_trans hfar hhi
      norm_num at this

end RimTheorems

/-! ## The claims about `CreateBody` at a concrete input -/

section CreateWitnesses

/-- After `CreatePhysics`, with an engine that returns both bodies, `CreateBody` runs to
its end. -/
theorem CreateBody_after_CreatePhysics {α : Type} [LinearOrderedField α] (h : Host α)
    (s0 : MainScene α) (h0 : h.createSucceeds 0 = true) (h1 : h.createSucceeds 1 = true) :
    CreateBody h (CreatePhysics s0) = .ok (CreateBody h (CreatePhysics s0)).state := by
  rw [CreateBody_ok h _ worldCreated (CreatePhysics_world s0) h0 h1]
  rfl

/-- C3 at a concrete input: with the host `stoppingHost` over the reals, `CreateBody` after
`CreatePhysics` runs to its end and the chain of the wheel is as `rim_chain_vertices`
says. -/
theorem rim_chain_vertices_witness :
    CreateBody (stoppingHost Real.pi Real.cos Real.sin) (CreatePhysics (MainScene.new : MainScene ℝ))
      = .ok (CreateBody (stoppingHost Real.pi Real.cos Real.sin) (CreatePhysics (MainScene.new : MainScene ℝ))).state ∧
    ∃ wheel fd vs count,
      (CreateBody (stoppingHost Real.pi Real.cos Real.sin) (CreatePhysics (MainScene.new : MainScene ℝ))).state.wheel = some wheel ∧ wheel.fixtures[1]? = some fd ∧
      fd.shape = some (b2Shape.chain vs count) ∧
      vs.length = 3 * 36 + 1 ∧
      (∀ k j, k < 36 → j < 3 → vs[3 * k + j]? = (spikeOf (stoppingHost Real.pi Real.cos Real.sin) 3.0 36 k)[j]?) ∧
      (∃ v, vs[0]? = some v ∧ vs[108]? = some v) ∧
      count = vs.length :=
  ⟨CreateBody_after_CreatePhysics _ _ rfl rfl,
    rim_chain_vertices _ _ _ (CreateBody_after_CreatePhysics _ _ rfl rfl)⟩

/-- C8 at a concrete input: with the host `stoppingHost` over the reals, `CreateBody` after
`CreatePhysics` runs to its end and the wheel is as `wheel_after_CreateBody` says. -/
theorem wheel_after_CreateBody_witness :
    CreateBody (stoppingHost Real.pi Real.cos Real.sin) (CreatePhysics (MainScene.new : MainScene ℝ))
      = .ok (CreateBody (stoppingHost Real.pi Real.cos Real.sin) (CreatePhysics (MainScene.new : MainScene ℝ))).state ∧
    ∃ i wheel vs v made,
      (CreateBody (stoppingHost Real.pi Real.cos Real.sin) (CreatePhysics (MainScene.new : MainScene ℝ))).state._body = some i ∧ (CreateBody (stoppingHost Real.pi Real.cos Real.sin) (CreatePhysics (MainScene.new : MainScene ℝ))).state.wheel = some wheel ∧
      wheel.type = b2BodyType.b2_dynamicBody ∧
      wheel.position.x = 0 ∧ wheel.position.y = 0 ∧
      wheel.fixtures.map FixtureDef.shape
        = [some (b2Shape.circle 2.5), some (b2Shape.chain vs vs.length)] ∧
      vs[0]? = some v ∧ vs.getLast? = some v ∧
      vs.length = 3 * 36 + 1 ∧
      (∀ k : Nat, k < 36 →
        vs[3 * k]? = some
          ⟨3.0 * (stoppingHost Real.pi Real.cos Real.sin).cosf ((stoppingHost Real.pi Real.cos Real.sin).M_PI * 2 / ((36 : Nat) : ℝ) * (k : ℝ) - 2 * (stoppingHost Real.pi Real.cos Real.sin).M_PI / 180),
           3.0 * (stoppingHost Real.pi Real.cos Real.sin).sinf ((stoppingHost Real.pi Real.cos Real.sin).M_PI * 2 / ((36 : Nat) : ℝ) * (k : ℝ) - 2 * (stoppingHost Real.pi Real.cos Real.sin).M_PI / 180)⟩ ∧
        vs[3 * k + 1]? = some
          ⟨3.0 * (stoppingHost Real.pi Real.cos Real.sin).cosf ((stoppingHost Real.pi Real.cos Real.sin).M_PI * 2 / ((36 : Nat) : ℝ) * (k : ℝ)) * 0.98,
           3.0 * (stoppingHost Real.pi Real.cos Real.sin).sinf ((stoppingHost Real.pi Real.cos Real.sin).M_PI * 2 / ((36 : Nat) : ℝ) * (k : ℝ)) * 0.98⟩ ∧
        vs[3 * k + 2]? = some
          ⟨3.0 * (stoppingHost Real.pi Real.cos Real.sin).cosf ((stoppingHost Real.pi Real.cos Real.sin).M_PI * 2 / ((36 : Nat) : ℝ) * (k : ℝ) + 2 * (stoppingHost Real.pi Real.cos Real.sin).M_PI / 180),
           3.0 * (stoppingHost Real.pi Real.cos Real.sin).sinf ((stoppingHost Real.pi Real.cos Real.sin).M_PI * 2 / ((36 : Nat) : ℝ) * (k : ℝ) + 2 * (stoppingHost Real.pi Real.cos Real.sin).M_PI / 180)⟩) ∧
      vs[108]? = some v ∧
      wheel.angularVelocity = (stoppingHost Real.pi Real.cos Real.sin).M_PI / 8 ∧
      (CreateBody (stoppingHost Real.pi Real.cos Real.sin) (CreatePhysics (MainScene.new : MainScene ℝ))).state.calls = (CreatePhysics (MainScene.new : MainScene ℝ)).calls ++ made ∧
      (∀ c ∈ made, Call.setsLinearVelocityOf i c = false) ∧
      wheel.linearVelocity.x = (b2BodyDef.new : b2BodyDef ℝ).linearVelocity.x ∧
      wheel.linearVelocity.y = (b2BodyDef.new : b2BodyDef ℝ).linearVelocity.y :=
  ⟨CreateBody_after_CreatePhysics _ _ rfl rfl,
    wheel_after_CreateBody _ _ _ (CreateBody_after_CreatePhysics _ _ rfl rfl)⟩

/-- C4 at a concrete input: with the real `cos`, `sin` and `π`, `CreateBody` after
`CreatePhysics` runs to its end and the rim vertices are where `rim_vertex_positions`
says. -/
theorem rim_vertex_positions_witness :
    CreateBody ((stoppingHost Real.pi Real.cos Real.sin).withLibm Real.pi Real.cos Real.sin) (CreatePhysics (MainScene.new : MainScene ℝ))
      = .ok (CreateBody ((stoppingHost Real.pi Real.cos Real.sin).withLibm Real.pi Real.cos Real.sin) (CreatePhysics (MainScene.new : MainScene ℝ))).state ∧
    ∃ wheel fd vs count,
      (CreateBody ((stoppingHost Real.pi Real.cos Real.sin).withLibm Real.pi Real.cos Real.sin) (CreatePhysics (MainScene.new : MainScene ℝ))).state.wheel = some wheel ∧ wheel.fixtures[1]? = some fd ∧
      fd.shape = some (b2Shape.chain vs count) ∧
      ∀ k : Nat, k < 36 →
        ∃ v0 v1 v2 : Vec2 ℝ,
          vs[3 * k]? = some v0 ∧ vs[3 * k + 1]? = some v1 ∧ vs[3 * k + 2]? = some v2 ∧
          v0.x = 3.0 * Real.cos (2 * Real.pi / 36 * k - 2 * Real.pi / 180) ∧
          v0.y = 3.0 * Real.sin (2 * Real.pi / 36 * k - 2 * Real.pi / 180) ∧
          v1.x = 0.98 * 3.0 * Real.cos (2 * Real.pi / 36 * k) ∧
          v1.y = 0.98 * 3.0 * Real.sin (2 * Real.pi / 36 * k) ∧
          v2.x = 3.0 * Real.cos (2 * Real.pi / 36 * k + 2 * Real.pi / 180) ∧
          v2.y = 3.0 * Real.sin (2 * Real.pi / 36 * k + 2 * Real.pi / 180) ∧
          Real.sqrt v1.normSq = 2.94 ∧ Real.sqrt v0.normSq = 3.0 ∧
          Real.sqrt v2.normSq = 3.0 :=
  ⟨CreateBody_after_CreatePhysics _ _ rfl rfl,
    rim_vertex_positions _ _ _ (CreateBody_after_CreatePhysics _ _ rfl rfl)⟩

/-- C10 at a concrete input: with the real `cos`, `sin` and `π`, `CreateBody` after
`CreatePhysics` runs to its end and the ball is clear of the wheel as
`ball_clear_of_wheel` says. -/
theorem ball_clear_of_wheel_witness :
    CreateBody ((stoppingHost Real.pi Real.cos Real.sin).withLibm Real.pi Real.cos Real.sin) (CreatePhysics (MainScene.new : MainScene ℝ))
      = .ok (CreateBody ((stoppingHost Real.pi Real.cos Real.sin).withLibm Real.pi Real.cos Real.sin) (CreatePhysics (MainScene.new : MainScene ℝ))).state ∧
    ∃ wheel ball vs count,
      (CreateBody ((stoppingHost Real.pi Real.cos Real.sin).withLibm Real.pi Real.cos Real.sin) (CreatePhysics (MainScene.new : MainScene ℝ))).state.wheel = some wheel ∧ (CreateBody ((stoppingHost Real.pi Real.cos Real.sin).withLibm Real.pi Real.cos Real.sin) (CreatePhysics (MainScene.new : MainScene ℝ))).state.ball = some ball ∧
      wheel.fixtures.map FixtureDef.shape
        = [some (b2Shape.circle 2.5), some (b2Shape.chain vs count)] ∧
      ball.fixtures.map FixtureDef.shape = [some (b2Shape.circle 0.1)] ∧
      ball.position.x = 2.75 ∧ ball.position.y = 0 ∧
      wheel.position.x = 0 ∧ wheel.position.y = 0 ∧
      vs.length = 109 ∧
      (0.98 * 3.0 : ℝ) = 2.94 ∧
      (∀ (i : Nat) (a b : Vec2 ℝ) (t : ℝ), vs[i]? = some a → vs[i + 1]? = some b →
        0 ≤ t → t ≤ 1 → 0.98 * 3.0 ≤ Real.sqrt (Vec2.lerp a b t).normSq) ∧
      (∀ q : Vec2 ℝ, Real.sqrt (Vec2.distSq q ball.position) ≤ 0.1 →
        2.65 ≤ Real.sqrt q.normSq ∧ Real.sqrt q.normSq ≤ 2.85 ∧
        ¬ Real.sqrt q.normSq ≤ 2.5 ∧
        ∀ (i : Nat) (a b : Vec2 ℝ) (t : ℝ), vs[i]? = some a → vs[i + 1]? = some b →
          0 ≤ t → t ≤ 1 → q ≠ Vec2.lerp a b t) :=
  ⟨CreateBody_after_CreatePhysics _ _ rfl rfl,
    ball_clear_of_wheel _ _ _ (CreateBody_after_CreatePhysics _ _ rfl rfl)⟩

end CreateWitnesses

end RouletteWheel
